import Mathlib

/-!
Verification of the Weenix-style OS core (VFS / S5FS / VM) against its
natural-language specification.  Each section shallowly embeds the C
functions the claims concern; functions that the source leaves as
NOT_YET_IMPLEMENTED stubs are modelled from the specification and marked
as such in their doc comments.
-/

set_option maxRecDepth 10000

/-- Error codes (errno.h is not part of the sources; the numeric values are
immaterial, so errors are modelled as an enumeration). -/
inductive Errno where
  | EINVAL
  | ENOENT
  | ENOTDIR
  | ENOTEMPTY
  | ENAMETOOLONG
  | ENOSPC
  | EFBIG
  | EBADF
  | EISDIR
  | EEXIST
  | ENOTSUP
  | ENOMEM
deriving DecidableEq, Repr

/-- Result of a kernel operation: a value, a negated errno, or a KASSERT /
undefined-behaviour crash (kernel panic). -/
inductive KResult (α : Type) where
  | ok (a : α)
  | err (e : Errno)
  | crash
deriving DecidableEq, Repr

/-- Block and page size (4096 bytes, per the spec §3 and §6.1). -/
def S5_BLOCK_SIZE : Nat := 4096

/-- Page size; the spec fixes pages at the block size (4096 bytes). -/
def PAGE_SIZE : Nat := 4096

/-- Modelled from the spec: number of direct block slots in an inode
(`N_DIRECT`); the s5fs header is not in the sources, the exact value is
immaterial to the claims. -/
def S5_NDIRECT_BLOCKS : Nat := 28

/-- Modelled from the spec: number of block pointers in the single indirect
block (one 4096-byte block of 4-byte block numbers). -/
def S5_NIDIRECT_BLOCKS : Nat := 1024

/-- Maximum number of file blocks: direct slots plus one indirect block's
worth of slots (spec §4.2.6, "at most one level" of indirection). -/
def S5_MAX_FILE_BLOCKS : Nat := S5_NDIRECT_BLOCKS + S5_NIDIRECT_BLOCKS

/-- Maximum file size in bytes. -/
def S5_MAX_FILE_SIZE : Nat := S5_MAX_FILE_BLOCKS * S5_BLOCK_SIZE

/- ===================== C2 / C3 : s5_write_file / s5_read_file ====== -/

/-- A file's byte contents together with its length (the spec keeps the
vnode's `vn_len` and the inode's `s5_size` equal; one field models both). -/
structure S5File where
  len : Nat
  content : Nat → Nat

/-- Splice `bytes` into the byte map `g` at position `pos`. -/
def spliceAt (g : Nat → Nat) (pos : Nat) (bytes : List Nat) : Nat → Nat :=
  fun i =>
    if pos ≤ i ∧ i < pos + bytes.length then bytes.getD (i - pos) 0
    else g i

/-- Overwrite the byte range starting at `pos` with `bytes`. -/
def writeRange (f : S5File) (pos : Nat) (bytes : List Nat) : S5File :=
  { f with content := spliceAt f.content pos bytes }

/-- The block-by-block copy-in loop of `s5_write_file`: each iteration
writes `min (S5_BLOCK_SIZE - pos % S5_BLOCK_SIZE) remaining` bytes through
the page frame of the current file block, then advances. -/
def writeChunks (f : S5File) (pos : Nat) (buf : List Nat) : S5File :=
  if h : buf.length = 0 then f
  else
    let chunk := min (S5_BLOCK_SIZE - pos % S5_BLOCK_SIZE) buf.length
    writeChunks (writeRange f pos (buf.take chunk)) (pos + chunk) (buf.drop chunk)
termination_by buf.length
decreasing_by
  simp only [List.length_drop]
  have hofs : pos % S5_BLOCK_SIZE < S5_BLOCK_SIZE :=
    Nat.mod_lt _ (by decide)
  have h1 : 1 ≤ S5_BLOCK_SIZE - pos % S5_BLOCK_SIZE := by omega
  have h2 : 1 ≤ buf.length := by omega
  have : 1 ≤ min (S5_BLOCK_SIZE - pos % S5_BLOCK_SIZE) buf.length :=
    le_min h1 h2
  omega

/-- The block-by-block copy-out loop of `s5_read_file`. -/
def readChunks (f : S5File) (pos remaining : Nat) : List Nat :=
  if h : remaining = 0 then []
  else
    let chunk := min (S5_BLOCK_SIZE - pos % S5_BLOCK_SIZE) remaining
    ((List.range chunk).map fun i => f.content (pos + i))
      ++ readChunks f (pos + chunk) (remaining - chunk)
termination_by remaining
decreasing_by
  have hofs : pos % S5_BLOCK_SIZE < S5_BLOCK_SIZE :=
    Nat.mod_lt _ (by decide)
  have h1 : 1 ≤ S5_BLOCK_SIZE - pos % S5_BLOCK_SIZE := by omega
  have h2 : 1 ≤ remaining := by omega
  have : 1 ≤ min (S5_BLOCK_SIZE - pos % S5_BLOCK_SIZE) remaining :=
    le_min h1 h2
  omega

/-- Modelled from the spec: `s5_read_file` is a NOT_YET_IMPLEMENTED stub in
`s5fs_subr.c`.  Per the spec (§4.2.7, §8): "clamps at end of file, iterates
block-by-block, ... copies out"; "read at or past EOF returns 0".  Returns
the byte count and the bytes read. -/
def s5_read_file (f : S5File) (pos len : Nat) : Nat × List Nat :=
  if pos ≥ f.len then (0, [])
  else
    let toRead := min len (f.len - pos)
    (toRead, readChunks f pos toRead)

/-- Modelled from the spec: `s5_write_file` is a NOT_YET_IMPLEMENTED stub in
`s5fs_subr.c`.  Per the spec (§4.2.7) and the stub's own contract:
"returns EFBIG only if pos exceeds max file size; otherwise grows file
(updating both the vnode length and inode size) and writes block by
block", a partial write up to the maximum file size being allowed. -/
def s5_write_file (f : S5File) (pos : Nat) (buf : List Nat) :
    KResult Nat × S5File :=
  if pos > S5_MAX_FILE_SIZE then (.err .EFBIG, f)
  else
    let toWrite := min buf.length (S5_MAX_FILE_SIZE - pos)
    let f1 := if pos + toWrite > f.len then { f with len := pos + toWrite } else f
    (.ok toWrite, writeChunks f1 pos (buf.take toWrite))

/- ===================== C5 / C6 / C10 : s5fs_subr state ============= -/

/-- Modelled from the spec: number of slots in a free-list node and in the
superblock's inline free-block array (`N_FREE`); the s5fs header is not in
the sources and the exact value is immaterial, only that the last slot
holds the link to the next node. -/
def S5_NBLKS_PER_FNODE : Nat := 8

/-- The `(uint32_t)-1` sentinel terminating the free-inode list. -/
def S5_FREE_INO_SENTINEL : Nat := 4294967295

/-- On-disk inode type tags (spec §3: free, data, directory, char, block). -/
inductive S5Type where
  | FREE
  | DATA
  | DIR
  | CHR
  | BLK
deriving DecidableEq, Repr

/-- Modelled from the spec: `stat.h` is not in the sources; `s5fs_mkdir`
passes `S_IFDIR` where an inode type tag is expected, which the spec
identifies with the directory tag. -/
def S_IFDIR : S5Type := S5Type.DIR

/-- On-disk inode (`s5_inode_t`).  `s5_un` models the C union holding either
the file size or the next-free-inode link. -/
structure S5Inode where
  s5_number : Nat
  s5_un : Nat
  s5_type : S5Type
  s5_linkcount : Nat
  s5_direct_blocks : List Nat
  s5_indirect_block : Nat
deriving DecidableEq, Repr

/-- The superblock fields the free-list code manipulates (`s5_super_t`). -/
structure S5Super where
  s5s_free_blocks : List Nat
  s5s_nfree : Nat
  s5s_free_inode : Nat
deriving DecidableEq, Repr

/-- The filesystem state touched by `s5fs_subr.c`: the superblock, the inode
table, the contents of disk blocks (as arrays of 32-bit words, as the
free-list and indirect-block code reads them) and the block-device page
frames' dirty bits. -/
structure S5State where
  super : S5Super
  inodes : Nat → S5Inode
  disk : Nat → List Nat
  dirty : Nat → Bool

/-- `s5_free_block` (implemented in `s5fs_subr.c`): add `blockno` to the free
list.  The two leading crash branches are the function's KASSERTs
(`KASSERT(blockno)`, `KASSERT(s->s5s_nfree < S5_NBLKS_PER_FNODE)`).
`s5_get_disk_block(..., forwrite=1, ...)` marks the frame dirty; the
not-full branch then clears `pf_dirty`, so its net dirty bit is false. -/
def s5_free_block (st : S5State) (blockno : Nat) : KResult Unit × S5State :=
  if blockno = 0 then (.crash, st)
  else if S5_NBLKS_PER_FNODE ≤ st.super.s5s_nfree then (.crash, st)
  else if st.super.s5s_nfree = S5_NBLKS_PER_FNODE - 1 then
    (.ok (),
      { st with
        dirty := fun b => if b = blockno then true else st.dirty b,
        disk := fun b => if b = blockno then st.super.s5s_free_blocks else st.disk b,
        super := { st.super with
          s5s_nfree := 0,
          s5s_free_blocks :=
            st.super.s5s_free_blocks.set (S5_NBLKS_PER_FNODE - 1) blockno } })
  else
    (.ok (),
      { st with
        dirty := fun b => if b = blockno then false else st.dirty b,
        super := { st.super with
          s5s_nfree := st.super.s5s_nfree + 1,
          s5s_free_blocks :=
            st.super.s5s_free_blocks.set st.super.s5s_nfree blockno } })

/-- `s5_alloc_inode` (implemented in `s5fs_subr.c`): pop the head of the
free-inode list, initialize the inode, return its number.  Crash branches
model the KASSERTs (valid type tag at entry; `s5_number` consistency in
`s5_get_inode`; `s5_next_free != s5_number`, checked after the head has
already been replaced). -/
def s5_alloc_inode (st : S5State) (ty : S5Type) (devid : Nat) :
    KResult Nat × S5State :=
  if ty = .DATA ∨ ty = .DIR ∨ ty = .CHR ∨ ty = .BLK then
    if st.super.s5s_free_inode = S5_FREE_INO_SENTINEL then (.err .ENOSPC, st)
    else
      if (st.inodes st.super.s5s_free_inode).s5_number = st.super.s5s_free_inode then
        if (st.inodes st.super.s5s_free_inode).s5_un = st.super.s5s_free_inode then
          (.crash, { st with super := { st.super with
            s5s_free_inode := (st.inodes st.super.s5s_free_inode).s5_un } })
        else
          (.ok st.super.s5s_free_inode,
            { st with
              super := { st.super with
                s5s_free_inode := (st.inodes st.super.s5s_free_inode).s5_un },
              inodes := fun i =>
                if i = st.super.s5s_free_inode then
                  { st.inodes st.super.s5s_free_inode with
                    s5_un := 0,
                    s5_type := ty,
                    s5_linkcount := 0,
                    s5_direct_blocks := List.replicate S5_NDIRECT_BLOCKS 0,
                    s5_indirect_block := if ty = .CHR ∨ ty = .BLK then devid else 0 }
                else st.inodes i })
      else (.crash, st)
  else (.crash, st)

/-- Free every non-zero block number in the list via `s5_free_block`
(the loops over `direct_blocks_to_free` / `indirect_blocks_to_free` in
`s5_free_inode`). -/
def s5_free_block_loop (st : S5State) : List Nat → KResult Unit × S5State
  | [] => (.ok (), st)
  | b :: rest =>
    if b = 0 then s5_free_block_loop st rest
    else
      match s5_free_block st b with
      | (.ok _, st1) => s5_free_block_loop st1 rest
      | r => r

/-- The tail of `s5_free_inode` after the type dispatch: push the inode onto
the free-inode list (next-free link := old head, type := FREE, head := ino),
then free the collected direct blocks, then — if an indirect block was
collected — read it, free its non-zero entries and the indirect block
itself. -/
def s5_free_inode_rest (st : S5State) (ino : Nat) (direct : List Nat)
    (ind : Nat) : KResult Unit × S5State :=
  match s5_free_block_loop
      { st with
        inodes := fun i =>
          if i = ino then
            { st.inodes ino with
              s5_un := st.super.s5s_free_inode, s5_type := .FREE }
          else st.inodes i,
        super := { st.super with s5s_free_inode := ino } }
      direct with
  | (.ok _, st2) =>
    if ind = 0 then (.ok (), st2)
    else
      match s5_free_block_loop st2 (st2.disk ind) with
      | (.ok _, st3) => s5_free_block st3 ind
      | r => r
  | r => r

/-- `s5_free_inode` (implemented in `s5fs_subr.c`).  For DATA/DIR inodes the
direct slots and the indirect pointer are collected for freeing; for
BLK/CHR inodes the collected direct array is zeroed out and the collected
indirect pointer is 0 (the field holds the device id and is never treated
as a block pointer); any other type fails the KASSERT. -/
def s5_free_inode (st : S5State) (ino : Nat) : KResult Unit × S5State :=
  if (st.inodes ino).s5_number = ino then
    if (st.inodes ino).s5_type = .DATA ∨ (st.inodes ino).s5_type = .DIR then
      s5_free_inode_rest st ino (st.inodes ino).s5_direct_blocks
        (st.inodes ino).s5_indirect_block
    else if (st.inodes ino).s5_type = .BLK ∨ (st.inodes ino).s5_type = .CHR then
      s5_free_inode_rest st ino (List.replicate S5_NDIRECT_BLOCKS 0) 0
    else (.crash, st)
  else (.crash, st)

/-- `s5fs_mkdir` (implemented in `s5fs.c`): allocate an inode with the
`S_IFDIR` tag, then create the parent entry, ".", and ".." via `s5_link`,
undoing with `s5_remove_dirent` / `s5_free_inode` on failure.  `s5_link`
and `s5_remove_dirent` are NOT_YET_IMPLEMENTED stubs in the sources, so
they are taken as parameters (`link st dir name child` and
`rmde st dir name child`). -/
def s5fs_mkdir (link : S5State → Nat → String → Nat → KResult Unit × S5State)
    (rmde : S5State → Nat → String → Nat → S5State)
    (st : S5State) (dir : Nat) (name : String) : KResult Nat × S5State :=
  match s5_alloc_inode st S_IFDIR 0 with
  | (.err e, st1) => (.err e, st1)
  | (.crash, st1) => (.crash, st1)
  | (.ok ino, st1) =>
    match link st1 dir name ino with
    | (.ok _, st2) =>
      match link st2 ino "." ino with
      | (.ok _, st3) =>
        match link st3 ino ".." dir with
        | (.ok _, st4) => (.ok ino, st4)
        | (.err e, st4) =>
          (.err e, (s5_free_inode (rmde (rmde st4 dir name ino) ino "." ino) ino).2)
        | (.crash, st4) => (.crash, st4)
      | (.err e, st3) =>
        (.err e, (s5_free_inode (rmde st3 dir name ino) ino).2)
      | (.crash, st3) => (.crash, st3)
    | (.err e, st2) => (.err e, (s5_free_inode st2 ino).2)
    | (.crash, st2) => (.crash, st2)

/-- A concrete filesystem state with no free inodes (free-inode head is the
sentinel). -/
def stNoFreeInode : S5State :=
  { super := { s5s_free_blocks := [0, 0, 0, 0, 0, 0, 0, 4294967295],
               s5s_nfree := 0,
               s5s_free_inode := S5_FREE_INO_SENTINEL },
    inodes := fun _ => { s5_number := 0, s5_un := 0, s5_type := .FREE,
                         s5_linkcount := 0, s5_direct_blocks := [],
                         s5_indirect_block := 0 },
    disk := fun _ => [],
    dirty := fun _ => false }

/-- A concrete filesystem state whose free-inode list is `3 → 7 → end`. -/
def stTwoFreeInodes : S5State :=
  { super := { s5s_free_blocks := [0, 0, 0, 0, 0, 0, 0, 4294967295],
               s5s_nfree := 0,
               s5s_free_inode := 3 },
    inodes := fun i =>
      if i = 3 then
        { s5_number := 3, s5_un := 7, s5_type := .FREE, s5_linkcount := 0,
          s5_direct_blocks := [], s5_indirect_block := 0 }
      else if i = 7 then
        { s5_number := 7, s5_un := S5_FREE_INO_SENTINEL, s5_type := .FREE,
          s5_linkcount := 0, s5_direct_blocks := [], s5_indirect_block := 0 }
      else
        { s5_number := i, s5_un := 0, s5_type := .DATA, s5_linkcount := 1,
          s5_direct_blocks := [], s5_indirect_block := 0 },
    disk := fun _ => [],
    dirty := fun _ => false }

/-- A concrete state whose inline free-block array holds 3 entries. -/
def stPushCase : S5State :=
  { super := { s5s_free_blocks := [11, 12, 13, 0, 0, 0, 0, 4294967295],
               s5s_nfree := 3,
               s5s_free_inode := S5_FREE_INO_SENTINEL },
    inodes := fun _ => { s5_number := 0, s5_un := 0, s5_type := .FREE,
                         s5_linkcount := 0, s5_direct_blocks := [],
                         s5_indirect_block := 0 },
    disk := fun _ => [],
    dirty := fun _ => false }

/-- A concrete state whose inline free-block array is full
(`s5s_nfree = S5_NBLKS_PER_FNODE - 1`). -/
def stFullCase : S5State :=
  { super := { s5s_free_blocks := [11, 12, 13, 14, 15, 16, 17, 4294967295],
               s5s_nfree := 7,
               s5s_free_inode := S5_FREE_INO_SENTINEL },
    inodes := fun _ => { s5_number := 0, s5_un := 0, s5_type := .FREE,
                         s5_linkcount := 0, s5_direct_blocks := [],
                         s5_indirect_block := 0 },
    disk := fun _ => [],
    dirty := fun _ => false }

/-- A concrete state containing a char-device inode (number 4, device id 77
stored in `s5_indirect_block`, stale junk in the direct slots). -/
def stDevInode : S5State :=
  { super := { s5s_free_blocks := [11, 12, 13, 0, 0, 0, 0, 4294967295],
               s5s_nfree := 3,
               s5s_free_inode := 9 },
    inodes := fun i =>
      if i = 4 then
        { s5_number := 4, s5_un := 0, s5_type := .CHR, s5_linkcount := 0,
          s5_direct_blocks := [5, 6, 0, 8], s5_indirect_block := 77 }
      else
        { s5_number := i, s5_un := 0, s5_type := .FREE, s5_linkcount := 0,
          s5_direct_blocks := [], s5_indirect_block := 0 },
    disk := fun _ => [],
    dirty := fun _ => false }

/- ===================== C1 : s5fs_get_pframe ======================== -/

/-- Which memory object a returned page frame belongs to: the block
device's mobj at a disk block, or the vnode's own mobj at a file page. -/
inductive Frame where
  | blockdev (diskBlock : Nat)
  | vnodeFrame (pagenum : Nat)
deriving DecidableEq, Repr

/-- State for the file-block translation and `s5fs_get_pframe`: the vnode's
length, its cached inode's block pointers, the disk-block contents (arrays
of 32-bit words, for the indirect block), the allocator's pool of free
blocks, the residency of the vnode's own mobj, and the inode dirty flag. -/
structure PfState where
  vn_len : Nat
  direct : List Nat
  indirect : Nat
  diskWords : Nat → List Nat
  freeList : List Nat
  resident : Nat → Bool
  dirtied_inode : Bool

/-- Modelled from the spec (§4.2.2, §4.2.4): `s5_alloc_block` is a
NOT_YET_IMPLEMENTED stub in `s5fs_subr.c`.  Pops a block from the free
pool and zeroes its contents ("alloc_block returns a zeroed block");
ENOSPC when no free block remains. -/
def s5_alloc_block (st : PfState) : KResult Nat × PfState :=
  match st.freeList with
  | [] => (.err .ENOSPC, st)
  | b :: rest =>
    (.ok b,
      { st with
        freeList := rest,
        diskWords := fun blk =>
          if blk = b then List.replicate S5_NIDIRECT_BLOCKS 0
          else st.diskWords blk })

/-- Returning a block to the allocator's pool, for the translation's
error-cleanup path ("release previously allocated block(s)", spec §4.2.6). -/
def s5_release_alloc (st : PfState) (b : Nat) : PfState :=
  { st with freeList := b :: st.freeList }

/-- Modelled from the spec (§4.2.6): `s5_file_block_to_disk_block` is a
NOT_YET_IMPLEMENTED stub in `s5fs_subr.c`.  Given file block k: use the
direct slot when k < N_DIRECT (allocating into it when requested);
otherwise go through the single indirect block, allocating the indirect
block and the data block when requested and releasing the first allocation
if the second fails; return 0 for sparse when allocation is not requested;
EINVAL when k is at or beyond the maximum file blocks. -/
def s5_file_block_to_disk_block (st : PfState) (k : Nat) (alloc : Bool) :
    KResult Nat × PfState :=
  if k ≥ S5_MAX_FILE_BLOCKS then (.err .EINVAL, st)
  else if k < S5_NDIRECT_BLOCKS then
    if st.direct.getD k 0 = 0 then
      if alloc then
        match s5_alloc_block st with
        | (.ok nb, st1) =>
          (.ok nb, { st1 with direct := st1.direct.set k nb, dirtied_inode := true })
        | r => r
      else (.ok 0, st)
    else (.ok (st.direct.getD k 0), st)
  else
    if st.indirect = 0 then
      if alloc then
        match s5_alloc_block st with
        | (.ok indb, st1) =>
          (match s5_alloc_block st1 with
           | (.ok nb, st2) =>
             (.ok nb,
               { st2 with
                 indirect := indb,
                 dirtied_inode := true,
                 diskWords := fun blk =>
                   if blk = indb then
                     (st2.diskWords indb).set (k - S5_NDIRECT_BLOCKS) nb
                   else st2.diskWords blk })
           | (.err e, st2) => (.err e, s5_release_alloc st2 indb)
           | (.crash, st2) => (.crash, st2))
        | r => r
      else (.ok 0, st)
    else
      if (st.diskWords st.indirect).getD (k - S5_NDIRECT_BLOCKS) 0 = 0 then
        if alloc then
          match s5_alloc_block st with
          | (.ok nb, st1) =>
            (.ok nb,
              { st1 with
                diskWords := fun blk =>
                  if blk = st.indirect then
                    (st1.diskWords st.indirect).set (k - S5_NDIRECT_BLOCKS) nb
                  else st1.diskWords blk })
          | r => r
        else (.ok 0, st)
      else (.ok ((st.diskWords st.indirect).getD (k - S5_NDIRECT_BLOCKS) 0), st)

/-- `s5fs_get_pframe` (implemented in `s5fs.c`): pages at or beyond the
vnode length are EINVAL; translate the page to a disk block, allocating
when `forwrite`; a concrete disk block evicts any frame cached in the
vnode's own mobj and yields the block device's frame; a sparse result hits
`KASSERT(!forwrite)` (crash when `forwrite` is set) and yields a frame of
the vnode's own mobj, zero-filled on demand. -/
def s5fs_get_pframe (st : PfState) (pagenum : Nat) (forwrite : Bool) :
    KResult Frame × PfState :=
  if st.vn_len ≤ pagenum * PAGE_SIZE then (.err .EINVAL, st)
  else
    match s5_file_block_to_disk_block st pagenum forwrite with
    | (.err e, st1) => (.err e, st1)
    | (.crash, st1) => (.crash, st1)
    | (.ok loc, st1) =>
      if loc ≠ 0 then
        (.ok (.blockdev loc),
          { st1 with
            resident := fun p => if p = pagenum then false else st1.resident p })
      else if forwrite then (.crash, st1)
      else
        (.ok (.vnodeFrame pagenum),
          { st1 with
            resident := fun p => if p = pagenum then true else st1.resident p })

/-- A concrete translation state: a one-byte file whose block 0 sits at disk
block 5, with an empty allocator pool. -/
def stPf : PfState :=
  { vn_len := 1, direct := [5], indirect := 0, diskWords := fun _ => [],
    freeList := [], resident := fun _ => false, dirtied_inode := false }

/- ===================== C4 : do_read ================================ -/

/-- Modelled from the spec: the FMODE_READ mode bit (`file.h` is not in the
sources; only its being a distinct bit matters). -/
def FMODE_READ : Nat := 1

/-- A file handle (`file_t`): mode bits, current position, and the
underlying vnode's directory flag and `read` operation (which returns a
byte count or an error). -/
structure FileT where
  f_mode : Nat
  f_pos : Nat
  vn_isDir : Bool
  vn_read : Nat → Nat → KResult Nat

/-- `do_read` (implemented in `vfs_syscall.c`): fget the descriptor (EBADF
when invalid or not open), EBADF unless FMODE_READ is set, EISDIR for
directories, then call the vnode's read at the current position.  The
source checks `if (ret != 0)` and returns early, so the `f_pos += ret`
update is reached only when the read returned 0. -/
def do_read (tbl : Nat → Option FileT) (fd : Nat) (len : Nat) :
    KResult Nat × (Nat → Option FileT) :=
  match tbl fd with
  | none => (.err .EBADF, tbl)
  | some file =>
    if file.f_mode &&& FMODE_READ ≠ 0 then
      if file.vn_isDir then (.err .EISDIR, tbl)
      else
        match file.vn_read file.f_pos len with
        | .err e => (.err e, tbl)
        | .crash => (.crash, tbl)
        | .ok n =>
          if n ≠ 0 then (.ok n, tbl)
          else
            (.ok n,
              fun i => if i = fd then some { file with f_pos := file.f_pos + n }
                       else tbl i)
    else (.err .EBADF, tbl)

/-- A concrete descriptor table: fd 0 is open for reading on a regular file
at position 10 whose vnode read operation returns 5 bytes. -/
def tblRead5 : Nat → Option FileT :=
  fun i =>
    if i = 0 then
      some { f_mode := FMODE_READ, f_pos := 10, vn_isDir := false,
             vn_read := fun _ _ => .ok 5 }
    else none

/- ===================== C7 : s5fs_rmdir ============================= -/

/-- A directory entry (`s5_dirent_t`): inode number and name. -/
structure S5Dirent where
  s5d_inode : Nat
  s5d_name : String
deriving DecidableEq, Repr

/-- Modelled from the spec: `sizeof(s5_dirent_t)` (fixed-size records; the
exact value is immaterial). -/
def S5_DIRENT_SIZE : Nat := 32

/-- A vnode as `s5fs_rmdir` sees it: directory flag, byte length (`vn_len`)
and the directory's live entries. -/
structure DirNode where
  isDir : Bool
  vn_len : Nat
  entries : List (String × Nat)

/-- State for the rmdir embedding: the vnode table and the parent directory
the call operates on. -/
structure RmState where
  nodes : Nat → DirNode
  parent : Nat

/-- Modelled from the spec (§4.2.8): `s5_find_dirent` is a
NOT_YET_IMPLEMENTED stub in `s5fs_subr.c`; it scans the directory's
entries and returns the inode number of the entry with the given name, or
ENOENT. -/
def s5_find_dirent (entries : List (String × Nat)) (name : String) :
    KResult Nat :=
  match entries.find? (fun e => e.1 == name) with
  | some e => .ok e.2
  | none => .err .ENOENT

/-- Modelled from the spec (§4.2.8): `s5_remove_dirent` is a
NOT_YET_IMPLEMENTED stub; it overwrites the removed entry with the last
entry and truncates the directory length by one entry. -/
def s5_remove_dirent_entries (l : List (String × Nat)) (name : String) :
    List (String × Nat) :=
  match l.getLast? with
  | none => l
  | some last => l.dropLast.map fun e => if e.1 == name then last else e

/-- Modelled from the spec: directory-side state change of
`s5_remove_dirent` on directory `dirIno`. -/
def s5_remove_dirent (st : RmState) (dirIno : Nat) (name : String) : RmState :=
  { st with
    nodes := fun i =>
      if i = dirIno then
        { st.nodes dirIno with
          vn_len := (st.nodes dirIno).vn_len - S5_DIRENT_SIZE,
          entries := s5_remove_dirent_entries (st.nodes dirIno).entries name }
      else st.nodes i }

/-- `s5fs_rmdir` (implemented in `s5fs.c`), faithful to the source: the
local `dirent` pointer is initialized to NULL (`none` here) and never
assigned; after a successful `s5_find_dirent` the code reads
`dirent->s5d_inode`, dereferencing NULL — the crash branch.  The
ENOTDIR / ENOTEMPTY checks and the three entry removals that follow are
unreachable. -/
def s5fs_rmdir (st : RmState) (name : String) : KResult Unit × RmState :=
  if name = "." then (.err .ENOTDIR, st)
  else if name = ".." then (.err .ENOTDIR, st)
  else
    let dirent : Option S5Dirent := none
    match s5_find_dirent (st.nodes st.parent).entries name with
    | .err e => (.err e, st)
    | .crash => (.crash, st)
    | .ok _ =>
      match dirent with
      | none => (.crash, st)
      | some d =>
        if ¬ (st.nodes d.s5d_inode).isDir then (.err .ENOTDIR, st)
        else if (st.nodes d.s5d_inode).vn_len > 2 * S5_DIRENT_SIZE then
          (.err .ENOTEMPTY, st)
        else
          (.ok (),
            s5_remove_dirent
              (s5_remove_dirent (s5_remove_dirent st st.parent name)
                d.s5d_inode ".")
              d.s5d_inode "..")

/-- A concrete state: the parent (inode 0) holds "sub" ↦ inode 5, and inode
5 is a directory with three entries — one besides "." and "..". -/
def stRmdir : RmState :=
  { nodes := fun i =>
      if i = 0 then
        { isDir := true, vn_len := 3 * S5_DIRENT_SIZE,
          entries := [(".", 0), ("..", 0), ("sub", 5)] }
      else if i = 5 then
        { isDir := true, vn_len := 3 * S5_DIRENT_SIZE,
          entries := [(".", 5), ("..", 0), ("x", 9)] }
      else { isDir := false, vn_len := 0, entries := [] },
    parent := 0 }

/- ===================== C8 : namev_open ============================= -/

/-- Modelled from the spec: the name length limit (`NAME_LEN`; the dirent
header is not in the sources, the exact value is immaterial). -/
def NAME_LEN : Nat := 28

/-- Modelled from the spec: the `O_CREAT` open-flag bit (`fcntl.h` is not in
the sources). -/
def O_CREAT : Nat := 256

/-- The filesystem as the path resolver sees it: the root vnode, the
directory predicate, the vnode `lookup` operation (s5fs's lookup returns
the child's inode number or, via `s5_find_dirent`, ENOENT) and the `mknod`
operation used under O_CREAT. -/
structure NamevFs where
  root : Nat
  isDir : Nat → Bool
  lookupFn : Nat → List Char → Option Nat
  mknodFn : Nat → List Char → KResult Nat

/-- `namev_lookup` (implemented in `namev.c`): ENOTDIR unless `dir` is a
directory with a lookup operation; a zero-length name returns `dir`
itself; otherwise delegate to the filesystem's lookup. -/
def namev_lookup (fs : NamevFs) (dir : Nat) (name : List Char) : KResult Nat :=
  if ¬ fs.isDir dir then .err .ENOTDIR
  else if name.length = 0 then .ok dir
  else
    match fs.lookupFn dir name with
    | some v => .ok v
    | none => .err .ENOENT

/-- Split a path at every separator ('/'), keeping empty segments. -/
def splitSlash : List Char → List (List Char)
  | [] => [[]]
  | c :: cs =>
    if c = '/' then [] :: splitSlash cs
    else
      match splitSlash cs with
      | [] => [[c]]
      | t :: ts => (c :: t) :: ts

/-- The component loop of `namev_dir` (implemented in `namev.c`): while the
lookahead token is nonempty, look up the current token in the current
directory and advance.  The token stream produced by the source's repeated
`namev_tokenize` calls is exactly the nonempty '/'-separated segments of
the path; as tokenization is pure, the stream is precomputed by the
caller. -/
def namev_dir_loop (fs : NamevFs) (basenode : Nat) :
    List Char → List (List Char) → KResult (Nat × List Char)
  | cur, [] => .ok (basenode, cur)
  | cur, next :: rest =>
    match namev_lookup fs basenode cur with
    | .err e => .err e
    | .crash => .crash
    | .ok v => namev_dir_loop fs v next rest

/-- `namev_dir` (implemented in `namev.c`): EINVAL for the empty path; an
absolute path starts at the root, otherwise at `base`; each component but
the last is looked up (errors propagate); the directory holding the last
component and the component itself are returned.  Note: no component is
ever length-checked here. -/
def namev_dir (fs : NamevFs) (base : Nat) (path : List Char) :
    KResult (Nat × List Char) :=
  if path.length = 0 then .err .EINVAL
  else
    let basenode := if path.head? = some '/' then fs.root else base
    match (splitSlash path).filter (fun t => !t.isEmpty) with
    | [] => .ok (basenode, [])
    | c :: cs => namev_dir_loop fs basenode c cs

/-- `namev_open` (implemented in `namev.c`): EINVAL when O_CREAT is given
and the path ends in '/'; resolve the parent via `namev_dir`; only then is
the basename checked against NAME_LEN (ENAMETOOLONG); look up the basename
(creating it via mknod when O_CREAT and the lookup says ENOENT); a
trailing '/' on a non-directory result is ENOTDIR. -/
def namev_open (fs : NamevFs) (base : Nat) (path : List Char) (oflags : Nat) :
    KResult Nat :=
  if oflags &&& O_CREAT ≠ 0 ∧ path.getLast? = some '/' then .err .EINVAL
  else
    match namev_dir fs base path with
    | .err e => .err e
    | .crash => .crash
    | .ok (dirnode, name) =>
      if name.length > NAME_LEN then .err .ENAMETOOLONG
      else
        match namev_lookup fs dirnode name with
        | .ok filenode =>
          if ¬ fs.isDir filenode ∧ path.getLast? = some '/' then .err .ENOTDIR
          else .ok filenode
        | .err e =>
          if e = .ENOENT ∧ oflags &&& O_CREAT ≠ 0 then
            match fs.mknodFn dirnode name with
            | .ok filenode =>
              if ¬ fs.isDir filenode ∧ path.getLast? = some '/' then
                .err .ENOTDIR
              else .ok filenode
            | .err e2 => .err e2
            | .crash => .crash
          else .err e
        | .crash => .crash

/-- A concrete filesystem whose root directory (inode 0) is empty. -/
def fsEmptyRoot : NamevFs :=
  { root := 0, isDir := fun i => i == 0, lookupFn := fun _ _ => none,
    mknodFn := fun _ _ => .err .ENOTSUP }

/- ===================== C9 : vmmap_find_range ======================= -/

/-- Modelled from the spec: bottom of user memory (header not in the
sources; the value does not affect the claim). -/
def USER_MEM_LOW : Nat := 4194304

/-- Modelled from the spec: top of user memory. -/
def USER_MEM_HIGH : Nat := 3221225472

/-- Direction tag: search from the top of user memory downward. -/
def VMMAP_DIR_HILO : Nat := 1

/-- Direction tag: search from the bottom of user memory upward. -/
def VMMAP_DIR_LOHI : Nat := 2

/-- `ADDR_TO_PN`: address to page number. -/
def ADDR_TO_PN (a : Nat) : Nat := a / PAGE_SIZE

/-- A VM area's half-open page range [vma_start, vma_end). -/
structure VmArea where
  vma_start : Nat
  vma_end : Nat
deriving DecidableEq, Repr

/-- The `list_iterate_reverse` loop of the HILO branch of
`vmmap_find_range` (part_000): areas are visited from highest to lowest;
`if (vma->vma_start > vfn) return vfn; else vfn = vma->vma_end + 1;`.
Takes the areas already reversed (highest first). -/
def findRangeHilo (vfn : Nat) : List VmArea → Nat
  | [] => vfn
  | vma :: rest =>
    if vma.vma_start > vfn then vfn else findRangeHilo (vma.vma_end + 1) rest

/-- `size_t` subtraction with 64-bit wraparound, as the LOHI branch's
`vma->vma_start - vfn` computes it. -/
def usub64 (a b : Nat) : Nat :=
  if b ≤ a then a - b else 18446744073709551616 - (b - a)

/-- The `list_iterate` loop of the LOHI branch:
`if (vma->vma_start - vfn >= npages) return vfn; else vfn = vma->vma_end;`. -/
def findRangeLohi (npages vfn : Nat) : List VmArea → Nat
  | [] => vfn
  | vma :: rest =>
    if usub64 vma.vma_start vfn ≥ npages then vfn
    else findRangeLohi npages vma.vma_end rest

/-- `vmmap_find_range` (implemented in part_000): reject oversize requests,
then run the direction's loop; any other direction yields -1. -/
def vmmap_find_range (map : List VmArea) (npages : Nat) (dir : Nat) : Int :=
  if npages > (USER_MEM_HIGH - USER_MEM_LOW) / PAGE_SIZE then -1
  else if dir = VMMAP_DIR_HILO then
    ((findRangeHilo (ADDR_TO_PN USER_MEM_HIGH - npages) map.reverse : Nat) : Int)
  else if dir = VMMAP_DIR_LOHI then
    ((findRangeLohi npages (ADDR_TO_PN USER_MEM_LOW) map : Nat) : Int)
  else -1

/- ===================== theorems =================================== -/

theorem spliceAt_append (g : Nat → Nat) (pos : Nat) (a b : List Nat) :
    spliceAt (spliceAt g pos a) (pos + a.length) b = spliceAt g pos (a ++ b) := by
  funext i
  unfold spliceAt
  simp only [List.length_append]
  by_cases hab : pos ≤ i ∧ i < pos + (a.length + b.length)
  · rw [if_pos (by omega : pos ≤ i ∧ i < pos + (a.length + b.length))]
    by_cases hb : pos + a.length ≤ i
    · rw [if_pos ⟨hb, by omega⟩,
        List.getD_append_right a b 0 (i - pos) (by omega)]
      congr 1
      omega
    · rw [if_neg (by omega), if_pos ⟨hab.1, by omega⟩,
        List.getD_append a b 0 (i - pos) (by omega)]
  · rw [if_neg (by omega), if_neg (by omega), if_neg (by omega)]

theorem writeRange_append (f : S5File) (pos : Nat) (a b : List Nat) :
    writeRange (writeRange f pos a) (pos + a.length) b =
      writeRange f pos (a ++ b) := by
  unfold writeRange
  congr 1
  exact spliceAt_append f.content pos a b

theorem spliceAt_nil (g : Nat → Nat) (pos : Nat) : spliceAt g pos [] = g := by
  funext i
  unfold spliceAt
  simp only [List.length_nil]
  rw [if_neg (by omega)]

theorem writeRange_nil (f : S5File) (pos : Nat) : writeRange f pos [] = f := by
  unfold writeRange
  rw [spliceAt_nil]

theorem writeChunks_eq_writeRange (n : Nat) :
    ∀ (f : S5File) (pos : Nat) (buf : List Nat), buf.length ≤ n →
      writeChunks f pos buf = writeRange f pos buf := by
  induction n with
  | zero =>
    intro f pos buf hlen
    have hb : buf = [] := List.length_eq_zero.mp (by omega)
    subst hb
    rw [writeChunks]
    simp only [List.length_nil, dif_pos]
    rw [writeRange_nil]
  | succ n ih =>
    intro f pos buf hlen
    by_cases h0 : buf.length = 0
    · have hb : buf = [] := List.length_eq_zero.mp h0
      subst hb
      rw [writeChunks]
      simp only [List.length_nil, dif_pos]
      rw [writeRange_nil]
    · rw [writeChunks]
      simp only [h0, dif_neg, not_false_iff]
      have hofs : pos % S5_BLOCK_SIZE < S5_BLOCK_SIZE := Nat.mod_lt _ (by decide)
      have hchunk1 : 1 ≤ min (S5_BLOCK_SIZE - pos % S5_BLOCK_SIZE) buf.length := by
        refine le_min (by omega) (by omega)
      have hdrop : (buf.drop (min (S5_BLOCK_SIZE - pos % S5_BLOCK_SIZE) buf.length)).length ≤ n := by
        simp only [List.length_drop]
        omega
      rw [ih _ _ _ hdrop]
      have htake : (buf.take (min (S5_BLOCK_SIZE - pos % S5_BLOCK_SIZE) buf.length)).length
          = min (S5_BLOCK_SIZE - pos % S5_BLOCK_SIZE) buf.length := by
        simp only [List.length_take]
        omega
      calc writeRange (writeRange f pos
              (buf.take (min (S5_BLOCK_SIZE - pos % S5_BLOCK_SIZE) buf.length)))
              (pos + min (S5_BLOCK_SIZE - pos % S5_BLOCK_SIZE) buf.length)
              (buf.drop (min (S5_BLOCK_SIZE - pos % S5_BLOCK_SIZE) buf.length))
          = writeRange (writeRange f pos
              (buf.take (min (S5_BLOCK_SIZE - pos % S5_BLOCK_SIZE) buf.length)))
              (pos + (buf.take (min (S5_BLOCK_SIZE - pos % S5_BLOCK_SIZE) buf.length)).length)
              (buf.drop (min (S5_BLOCK_SIZE - pos % S5_BLOCK_SIZE) buf.length)) := by
            rw [htake]
        _ = writeRange f pos
              (buf.take (min (S5_BLOCK_SIZE - pos % S5_BLOCK_SIZE) buf.length)
                ++ buf.drop (min (S5_BLOCK_SIZE - pos % S5_BLOCK_SIZE) buf.length)) :=
            writeRange_append _ _ _ _
        _ = writeRange f pos buf := by rw [List.take_append_drop]

/-- C3: for every file and every position at or past the end of the file,
`s5_read_file` returns 0 and reads no bytes. -/
theorem s5_read_file_at_eof (f : S5File) (pos len : Nat) (h : pos ≥ f.len) :
    s5_read_file f pos len = (0, []) := by
  unfold s5_read_file
  simp [h]

/-- Witness for C3 at a concrete input: a 100-byte file read at position
100 yields 0 bytes. -/
theorem s5_read_file_at_eof_witness :
    (100 ≥ (S5File.mk 100 fun _ => 7).len) ∧
      s5_read_file (S5File.mk 100 fun _ => 7) 100 10 = (0, []) :=
  ⟨by decide, s5_read_file_at_eof (S5File.mk 100 fun _ => 7) 100 10 (by decide)⟩

/-- C2: `s5_write_file` returns EFBIG exactly when `pos` is beyond the
maximum file size; for any valid `pos` it performs the (possibly partial)
write — the written prefix of `buf` lands at `pos`, the length grows to
cover it — and returns the number of bytes written. -/
theorem s5_write_file_efbig_iff (f : S5File) (pos : Nat) (buf : List Nat) :
    ((s5_write_file f pos buf).1 = .err .EFBIG ↔ pos > S5_MAX_FILE_SIZE) ∧
    (pos ≤ S5_MAX_FILE_SIZE →
      (s5_write_file f pos buf).1 = .ok (min buf.length (S5_MAX_FILE_SIZE - pos)) ∧
      (s5_write_file f pos buf).2.len =
        max f.len (pos + min buf.length (S5_MAX_FILE_SIZE - pos)) ∧
      (∀ i, i < min buf.length (S5_MAX_FILE_SIZE - pos) →
        (s5_write_file f pos buf).2.content (pos + i) = buf.getD i 0)) := by
  have hkey : ∀ hnot : ¬ pos > S5_MAX_FILE_SIZE,
      s5_write_file f pos buf =
        (.ok (min buf.length (S5_MAX_FILE_SIZE - pos)),
         writeChunks
           (if pos + min buf.length (S5_MAX_FILE_SIZE - pos) > f.len
            then { f with len := pos + min buf.length (S5_MAX_FILE_SIZE - pos) }
            else f)
           pos (buf.take (min buf.length (S5_MAX_FILE_SIZE - pos)))) := by
    intro hnot
    unfold s5_write_file
    rw [if_neg hnot]
  constructor
  · by_cases h : pos > S5_MAX_FILE_SIZE
    · unfold s5_write_file
      rw [if_pos h]
      simp [h]
    · rw [hkey h]
      simp [h]
  · intro h
    have hnot : ¬ pos > S5_MAX_FILE_SIZE := by omega
    rw [hkey hnot]
    refine ⟨rfl, ?_, ?_⟩
    · rw [writeChunks_eq_writeRange (buf.take (min buf.length (S5_MAX_FILE_SIZE - pos))).length
        _ _ _ (le_refl _)]
      show (if pos + min buf.length (S5_MAX_FILE_SIZE - pos) > f.len
            then { f with len := pos + min buf.length (S5_MAX_FILE_SIZE - pos) }
            else f).len = _
      by_cases hg : pos + min buf.length (S5_MAX_FILE_SIZE - pos) > f.len
      · rw [if_pos hg]
        show pos + min buf.length (S5_MAX_FILE_SIZE - pos) = _
        omega
      · rw [if_neg hg]
        omega
    · intro i hi
      rw [writeChunks_eq_writeRange (buf.take (min buf.length (S5_MAX_FILE_SIZE - pos))).length
        _ _ _ (le_refl _)]
      show spliceAt _ pos (buf.take (min buf.length (S5_MAX_FILE_SIZE - pos))) (pos + i) = _
      unfold spliceAt
      have hlen : (buf.take (min buf.length (S5_MAX_FILE_SIZE - pos))).length
          = min buf.length (S5_MAX_FILE_SIZE - pos) := by
        simp only [List.length_take]
        omega
      rw [hlen,
        if_pos ⟨Nat.le_add_right _ _, by omega⟩]
      simp only [Nat.add_sub_cancel_left]
      rw [List.getD_eq_getElem?_getD, List.getD_eq_getElem?_getD,
        List.getElem?_take_of_lt (by omega)]

/-- Witness for C2 at a concrete input: writing 3 bytes at position 0 of an
empty file succeeds with 3 bytes written. -/
theorem s5_write_file_efbig_iff_witness :
    (0 ≤ S5_MAX_FILE_SIZE) ∧
      (s5_write_file (S5File.mk 0 fun _ => 0) 0 [1, 2, 3]).1 =
        .ok (min ([1, 2, 3] : List Nat).length (S5_MAX_FILE_SIZE - 0)) :=
  ⟨Nat.zero_le _,
    ((s5_write_file_efbig_iff (S5File.mk 0 fun _ => 0) 0 [1, 2, 3]).2
      (Nat.zero_le _)).1⟩

/-- The direct-block loop of `s5_free_inode` does nothing when every
collected block number is zero. -/
theorem s5_free_block_loop_replicate_zero (st : S5State) (n : Nat) :
    s5_free_block_loop st (List.replicate n 0) = (.ok (), st) := by
  induction n with
  | zero => rfl
  | succ n ih =>
    rw [List.replicate_succ]
    unfold s5_free_block_loop
    rw [if_pos rfl]
    exact ih

/-- C6: `s5_free_block` pushes the freed block number into the inline array
and increments the count when the array is not full; when it is full
(`s5s_nfree = S5_NBLKS_PER_FNODE - 1`), it flushes the array's contents to
the freshly freed block and restarts the inline array with that block as
its only entry (stored in the link slot, with the count reset to 0). -/
theorem s5_free_block_spec (st : S5State) (blockno : Nat)
    (hb : blockno ≠ 0) (hn : st.super.s5s_nfree < S5_NBLKS_PER_FNODE) :
    (st.super.s5s_nfree = S5_NBLKS_PER_FNODE - 1 →
      s5_free_block st blockno =
        (.ok (), { st with
          dirty := fun b => if b = blockno then true else st.dirty b,
          disk := fun b => if b = blockno then st.super.s5s_free_blocks
            else st.disk b,
          super := { st.super with
            s5s_nfree := 0,
            s5s_free_blocks :=
              st.super.s5s_free_blocks.set (S5_NBLKS_PER_FNODE - 1) blockno } })) ∧
    (st.super.s5s_nfree ≠ S5_NBLKS_PER_FNODE - 1 →
      s5_free_block st blockno =
        (.ok (), { st with
          dirty := fun b => if b = blockno then false else st.dirty b,
          super := { st.super with
            s5s_nfree := st.super.s5s_nfree + 1,
            s5s_free_blocks :=
              st.super.s5s_free_blocks.set st.super.s5s_nfree blockno } })) := by
  constructor
  · intro hfull
    unfold s5_free_block
    rw [if_neg hb, if_neg (by omega), if_pos hfull]
  · intro hnf
    unfold s5_free_block
    rw [if_neg hb, if_neg (by omega), if_neg hnf]

/-- Witness for C6 at concrete inputs: freeing block 9 in a 3-entry state
(push case) and in a full state (flush-and-restart case) both succeed. -/
theorem s5_free_block_spec_witness :
    ((9 : Nat) ≠ 0) ∧ stPushCase.super.s5s_nfree < S5_NBLKS_PER_FNODE ∧
    (s5_free_block stPushCase 9).1 = .ok () ∧
    (s5_free_block stFullCase 9).1 = .ok () := by
  refine ⟨by decide, by decide, ?_, ?_⟩
  · rw [(s5_free_block_spec stPushCase 9 (by decide) (by decide)).2 (by decide)]
  · rw [(s5_free_block_spec stFullCase 9 (by decide) (by decide)).1 (by decide)]

/-- C5: `s5_alloc_inode` returns ENOSPC exactly when the free-inode head is
the sentinel, leaving the filesystem unchanged; otherwise it pops the head
(the head becomes the popped inode's next-free link) and returns the popped
inode's number; consequently `s5fs_mkdir` in a filesystem with no free
inodes fails with ENOSPC, whatever the (stubbed) directory-entry helpers
do. -/
theorem s5_alloc_inode_enospc_spec (st : S5State) (ty : S5Type)
    (devid dir : Nat) (name : String)
    (link : S5State → Nat → String → Nat → KResult Unit × S5State)
    (rmde : S5State → Nat → String → Nat → S5State)
    (hty : ty = .DATA ∨ ty = .DIR ∨ ty = .CHR ∨ ty = .BLK) :
    (st.super.s5s_free_inode = S5_FREE_INO_SENTINEL →
      s5_alloc_inode st ty devid = (.err .ENOSPC, st) ∧
      s5fs_mkdir link rmde st dir name = (.err .ENOSPC, st)) ∧
    (st.super.s5s_free_inode ≠ S5_FREE_INO_SENTINEL →
      (st.inodes st.super.s5s_free_inode).s5_number = st.super.s5s_free_inode →
      (st.inodes st.super.s5s_free_inode).s5_un ≠ st.super.s5s_free_inode →
      (s5_alloc_inode st ty devid).1 = .ok st.super.s5s_free_inode ∧
      (s5_alloc_inode st ty devid).2.super.s5s_free_inode =
        (st.inodes st.super.s5s_free_inode).s5_un) := by
  constructor
  · intro hs
    have halloc : s5_alloc_inode st ty devid = (.err .ENOSPC, st) := by
      unfold s5_alloc_inode
      rw [if_pos hty, if_pos hs]
    refine ⟨halloc, ?_⟩
    have halloc2 : s5_alloc_inode st S_IFDIR 0 = (.err .ENOSPC, st) := by
      unfold s5_alloc_inode
      rw [if_pos (show S_IFDIR = S5Type.DATA ∨ S_IFDIR = S5Type.DIR ∨
        S_IFDIR = S5Type.CHR ∨ S_IFDIR = S5Type.BLK by decide), if_pos hs]
    unfold s5fs_mkdir
    rw [halloc2]
  · intro hs hnum hnext
    have hkey : s5_alloc_inode st ty devid =
        (.ok st.super.s5s_free_inode,
          { st with
            super := { st.super with
              s5s_free_inode := (st.inodes st.super.s5s_free_inode).s5_un },
            inodes := fun i =>
              if i = st.super.s5s_free_inode then
                { st.inodes st.super.s5s_free_inode with
                  s5_un := 0,
                  s5_type := ty,
                  s5_linkcount := 0,
                  s5_direct_blocks := List.replicate S5_NDIRECT_BLOCKS 0,
                  s5_indirect_block := if ty = .CHR ∨ ty = .BLK then devid else 0 }
              else st.inodes i }) := by
      unfold s5_alloc_inode
      rw [if_pos hty, if_neg hs, if_pos hnum, if_neg hnext]
    rw [hkey]
    exact ⟨rfl, rfl⟩

/-- Witness for C5 at concrete inputs: mkdir with an empty free-inode list
fails with ENOSPC; allocation in a state with free list `3 → 7` pops 3 and
leaves 7 as the new head. -/
theorem s5_alloc_inode_enospc_spec_witness :
    (stNoFreeInode.super.s5s_free_inode = S5_FREE_INO_SENTINEL) ∧
    s5fs_mkdir (fun s _ _ _ => (.ok (), s)) (fun s _ _ _ => s)
        stNoFreeInode 0 "d" = (.err .ENOSPC, stNoFreeInode) ∧
    (s5_alloc_inode stTwoFreeInodes .DATA 0).1 = .ok 3 ∧
    (s5_alloc_inode stTwoFreeInodes .DATA 0).2.super.s5s_free_inode = 7 := by
  refine ⟨rfl, ?_, ?_, ?_⟩
  · exact ((s5_alloc_inode_enospc_spec stNoFreeInode .DATA 0 0 "d"
      (fun s _ _ _ => (.ok (), s)) (fun s _ _ _ => s) (Or.inl rfl)).1 rfl).2
  · exact ((s5_alloc_inode_enospc_spec stTwoFreeInodes .DATA 0 0 "d"
      (fun s _ _ _ => (.ok (), s)) (fun s _ _ _ => s) (Or.inl rfl)).2
      (by decide) (by decide) (by decide)).1
  · exact ((s5_alloc_inode_enospc_spec stTwoFreeInodes .DATA 0 0 "d"
      (fun s _ _ _ => (.ok (), s)) (fun s _ _ _ => s) (Or.inl rfl)).2
      (by decide) (by decide) (by decide)).2

/-- C10: freeing a char-device or block-device inode pushes the inode onto
the free-inode list (next-free link := old head, type := FREE, head := ino)
and frees no disk blocks at all: the superblock's free-block array, free
count, the disk contents and the dirty bits are untouched, so the device id
held in `s5_indirect_block` is never pushed onto the free-block list. -/
theorem s5_free_inode_device_spec (st : S5State) (ino : Nat)
    (hnum : (st.inodes ino).s5_number = ino)
    (hty : (st.inodes ino).s5_type = .BLK ∨ (st.inodes ino).s5_type = .CHR) :
    s5_free_inode st ino =
      (.ok (), { st with
        inodes := fun i =>
          if i = ino then
            { st.inodes ino with
              s5_un := st.super.s5s_free_inode, s5_type := .FREE }
          else st.inodes i,
        super := { st.super with s5s_free_inode := ino } }) := by
  unfold s5_free_inode
  rw [if_pos hnum, if_neg (by rcases hty with h | h <;> simp [h]), if_pos hty]
  unfold s5_free_inode_rest
  rw [s5_free_block_loop_replicate_zero]
  rfl

/-- Witness for C10 at a concrete input: freeing char-device inode 4 (device
id 77) succeeds and leaves the free-block array and count unchanged while
the free-inode head becomes 4. -/
theorem s5_free_inode_device_spec_witness :
    ((stDevInode.inodes 4).s5_number = 4) ∧
    ((stDevInode.inodes 4).s5_type = .CHR) ∧
    (s5_free_inode stDevInode 4).1 = .ok () ∧
    (s5_free_inode stDevInode 4).2.super =
      { s5s_free_blocks := [11, 12, 13, 0, 0, 0, 0, 4294967295],
        s5s_nfree := 3, s5s_free_inode := 4 } := by
  refine ⟨by decide, by decide, ?_, ?_⟩
  · rw [s5_free_inode_device_spec stDevInode 4 (by decide) (Or.inr (by decide))]
  · rw [s5_free_inode_device_spec stDevInode 4 (by decide) (Or.inr (by decide))]
    rfl

/-- The modelled allocator never crashes, and on success returns a block
from the pool (hence non-zero under the free-pool invariant) while the
remaining pool keeps the invariant. -/
theorem s5_alloc_block_sound (st : PfState) (hfree : ∀ b ∈ st.freeList, b ≠ 0) :
    ((s5_alloc_block st).1 ≠ .crash) ∧
    (∀ nb st1, s5_alloc_block st = (.ok nb, st1) →
      nb ≠ 0 ∧ ∀ c ∈ st1.freeList, c ≠ 0) := by
  unfold s5_alloc_block
  rcases hfl : st.freeList with _ | ⟨b, rest⟩
  · refine ⟨by simp, ?_⟩
    intro nb st1 h
    simp at h
  · refine ⟨by simp, ?_⟩
    intro nb st1 h
    simp only [Prod.mk.injEq, KResult.ok.injEq] at h
    obtain ⟨hb, hst⟩ := h
    subst hb
    have hmem : b ∈ st.freeList := by
      rw [hfl]
      exact List.mem_cons_self _ _
    refine ⟨hfree b hmem, ?_⟩
    intro c hc
    rw [← hst] at hc
    exact hfree c (by rw [hfl]; exact List.mem_cons_of_mem _ hc)

/-- With allocation requested and a free pool containing no zero block, the
translation never crashes and never reports a sparse (zero) block on
success. -/
theorem s5_file_block_to_disk_block_alloc_nonzero (st : PfState) (k : Nat)
    (hfree : ∀ b ∈ st.freeList, b ≠ 0) :
    ((s5_file_block_to_disk_block st k true).1 ≠ .crash) ∧
    (∀ b, (s5_file_block_to_disk_block st k true).1 = .ok b → b ≠ 0) := by
  unfold s5_file_block_to_disk_block
  by_cases hk : k ≥ S5_MAX_FILE_BLOCKS
  · rw [if_pos hk]
    exact ⟨by simp, by intro b hb; simp at hb⟩
  · rw [if_neg hk]
    by_cases hkd : k < S5_NDIRECT_BLOCKS
    · rw [if_pos hkd]
      by_cases hz : st.direct.getD k 0 = 0
      · rw [if_pos hz, if_pos rfl]
        obtain ⟨r, st1, ha⟩ : ∃ r st1, s5_alloc_block st = (r, st1) := ⟨_, _, rfl⟩
        rw [ha]
        cases r with
        | ok nb =>
          have hnb := ((s5_alloc_block_sound st hfree).2 nb st1 ha).1
          exact ⟨by simp, by intro b hb; simp only [KResult.ok.injEq] at hb; omega⟩
        | err e => exact ⟨by simp, by intro b hb; simp at hb⟩
        | crash =>
          have hcr : (s5_alloc_block st).1 = .crash := by rw [ha]
          exact absurd hcr (s5_alloc_block_sound st hfree).1
      · rw [if_neg hz]
        exact ⟨by simp, by intro b hb; simp only [KResult.ok.injEq] at hb; omega⟩
    · rw [if_neg hkd]
      by_cases hind : st.indirect = 0
      · rw [if_pos hind, if_pos rfl]
        obtain ⟨r, st1, ha⟩ : ∃ r st1, s5_alloc_block st = (r, st1) := ⟨_, _, rfl⟩
        rw [ha]
        cases r with
        | ok indb =>
          have hst1 := ((s5_alloc_block_sound st hfree).2 indb st1 ha).2
          simp only []
          obtain ⟨r2, st2, ha2⟩ : ∃ r2 st2, s5_alloc_block st1 = (r2, st2) := ⟨_, _, rfl⟩
          rw [ha2]
          cases r2 with
          | ok nb =>
            have hnb := ((s5_alloc_block_sound st1 hst1).2 nb st2 ha2).1
            exact ⟨by simp, by intro b hb; simp only [KResult.ok.injEq] at hb; omega⟩
          | err e => exact ⟨by simp, by intro b hb; simp at hb⟩
          | crash =>
            have hcr : (s5_alloc_block st1).1 = .crash := by rw [ha2]
            exact absurd hcr (s5_alloc_block_sound st1 hst1).1
        | err e => exact ⟨by simp, by intro b hb; simp at hb⟩
        | crash =>
          have hcr : (s5_alloc_block st).1 = .crash := by rw [ha]
          exact absurd hcr (s5_alloc_block_sound st hfree).1
      · rw [if_neg hind]
        by_cases hslot : (st.diskWords st.indirect).getD (k - S5_NDIRECT_BLOCKS) 0 = 0
        · rw [if_pos hslot, if_pos rfl]
          obtain ⟨r, st1, ha⟩ : ∃ r st1, s5_alloc_block st = (r, st1) := ⟨_, _, rfl⟩
          rw [ha]
          cases r with
          | ok nb =>
            have hnb := ((s5_alloc_block_sound st hfree).2 nb st1 ha).1
            exact ⟨by simp, by intro b hb; simp only [KResult.ok.injEq] at hb; omega⟩
          | err e => exact ⟨by simp, by intro b hb; simp at hb⟩
          | crash =>
            have hcr : (s5_alloc_block st).1 = .crash := by rw [ha]
            exact absurd hcr (s5_alloc_block_sound st hfree).1
        · rw [if_neg hslot]
          exact ⟨by simp, by intro b hb; simp only [KResult.ok.injEq] at hb; omega⟩

/-- C1: whenever `s5fs_get_pframe` is called with `forwrite` set and
succeeds, the returned page frame belongs to the block device's memory
object at a concrete (non-zero) disk block, never to the vnode's own
memory object; equivalently the sparse branch — whose
`KASSERT(!forwrite)` would crash — is unreachable under `forwrite`,
given that the allocator's free pool contains no zero block (block 0 is
the superblock). -/
theorem s5fs_get_pframe_forwrite_blockdev (st : PfState) (pagenum : Nat)
    (hfree : ∀ b ∈ st.freeList, b ≠ 0) :
    ((s5fs_get_pframe st pagenum true).1 ≠ .crash) ∧
    (∀ pf st1, s5fs_get_pframe st pagenum true = (.ok pf, st1) →
      ∃ d, d ≠ 0 ∧ pf = Frame.blockdev d) := by
  unfold s5fs_get_pframe
  by_cases hlen : st.vn_len ≤ pagenum * PAGE_SIZE
  · rw [if_pos hlen]
    exact ⟨by simp, by intro pf st1 h; simp at h⟩
  · rw [if_neg hlen]
    have hP := s5_file_block_to_disk_block_alloc_nonzero st pagenum hfree
    obtain ⟨r, st1, htr⟩ : ∃ r st1, s5_file_block_to_disk_block st pagenum true = (r, st1) :=
      ⟨_, _, rfl⟩
    rw [htr] at hP
    rw [htr]
    cases r with
    | err e => exact ⟨by simp, by intro pf st2 h; simp at h⟩
    | crash => exact absurd rfl hP.1
    | ok loc =>
      have hnz : loc ≠ 0 := hP.2 loc (by simp)
      simp only []
      rw [if_pos hnz]
      refine ⟨by simp, ?_⟩
      intro pf st2 h
      simp only [Prod.mk.injEq, KResult.ok.injEq] at h
      exact ⟨loc, hnz, h.1.symm⟩

/-- Witness for C1 at a concrete input: a write-fault on page 0 of a
one-byte file mapped to disk block 5 crashes nowhere and returns the block
device's frame. -/
theorem s5fs_get_pframe_forwrite_blockdev_witness :
    (∀ b ∈ stPf.freeList, b ≠ 0) ∧
    ((s5fs_get_pframe stPf 0 true).1 ≠ .crash) ∧
    (s5fs_get_pframe stPf 0 true).1 = .ok (Frame.blockdev 5) :=
  ⟨by intro b hb; simp [stPf] at hb,
   (s5fs_get_pframe_forwrite_blockdev stPf 0
     (by intro b hb; simp [stPf] at hb)).1,
   rfl⟩

/-- C4 (code bug in `do_read`): on fd 0 — open for reading, not a
directory — a read whose vnode operation returns 5 bytes makes `do_read`
return 5 while the file position stays 10 instead of advancing to 15: the
source's `if (ret != 0) return ret;` bypasses `f_pos += ret` on every
successful non-empty read. -/
theorem do_read_does_not_advance_pos :
    (do_read tblRead5 0 100).1 = .ok 5 ∧
    ∃ f, (do_read tblRead5 0 100).2 0 = some f ∧ f.f_pos = 10 :=
  ⟨rfl, ⟨_, rfl, rfl⟩⟩

/-- C7 (code bug in `s5fs_rmdir`): removing "sub", a directory with three
entries, crashes on the NULL `dirent` dereference instead of returning
ENOTEMPTY; the length check is never reached. -/
theorem s5fs_rmdir_nonempty_crashes :
    (stRmdir.nodes 5).vn_len > 2 * S5_DIRENT_SIZE ∧
    s5fs_rmdir stRmdir "sub" = (.crash, stRmdir) :=
  ⟨by decide, rfl⟩

/-- C8 counterexample: a path whose first (intermediate) component has 29
characters — exceeding NAME_LEN = 28 — makes `namev_open` return ENOENT
(propagated from the filesystem lookup), not ENAMETOOLONG: intermediate
components are never length-checked. -/
theorem namev_open_long_component_not_enametoolong :
    (List.replicate 29 'a').length > NAME_LEN ∧
    namev_open fsEmptyRoot 0 (List.replicate 29 'a' ++ ['/', 'x']) 0 =
      .err .ENOENT ∧
    (KResult.err .ENOENT : KResult Nat) ≠ .err .ENAMETOOLONG :=
  ⟨by decide, by decide, by decide⟩

/-- C8 amended: `namev_open` returns ENAMETOOLONG when the final component
(the basename) exceeds NAME_LEN — for any path that gets past the
O_CREAT/trailing-slash check and whose directory part resolves. -/
theorem namev_open_basename_enametoolong (fs : NamevFs) (base : Nat)
    (path : List Char) (oflags : Nat) (dirnode : Nat) (name : List Char)
    (hflag : ¬ (oflags &&& O_CREAT ≠ 0 ∧ path.getLast? = some '/'))
    (hdir : namev_dir fs base path = .ok (dirnode, name))
    (hlong : name.length > NAME_LEN) :
    namev_open fs base path oflags = .err .ENAMETOOLONG := by
  unfold namev_open
  rw [if_neg hflag, hdir]
  simp only []
  rw [if_pos hlong]

/-- Witness for the amended C8 at a concrete input: opening a single
29-character basename yields ENAMETOOLONG. -/
theorem namev_open_basename_enametoolong_witness :
    (List.replicate 29 'b').length > NAME_LEN ∧
    namev_open fsEmptyRoot 0 (List.replicate 29 'b') 0 =
      .err .ENAMETOOLONG :=
  ⟨by decide,
   namev_open_basename_enametoolong fsEmptyRoot 0 (List.replicate 29 'b') 0 0
     (List.replicate 29 'b') (by decide) (by decide) (by decide)⟩

/-- C9 (code bug in `vmmap_find_range`, HILO): with only the topmost user
page mapped ([786431, 786432), the top of user memory being page 786432),
a request for one page returns 786433 — one page above the mapped area and
past the top of user memory — instead of 786430, the highest free page
below the mapped area: the loop moves the candidate upward
(`vfn = vma->vma_end + 1`) instead of below the blocking area. -/
theorem vmmap_find_range_hilo_bug :
    vmmap_find_range [⟨786431, 786432⟩] 1 VMMAP_DIR_HILO = 786433 ∧
    ADDR_TO_PN USER_MEM_HIGH < 786433 + 1 :=
  ⟨by decide, by decide⟩
